import Mathlib

/-!
Shallow embedding of the weather-profile resolution engine of
`mcp_server/mcp_tools/services/weather.py` (Open-Meteo weather service):
range classification, the daily fetch wrapper, the historical fallback
synthesizer with its calendar realignment and per-day aggregation, and the
range-level aggregates.

Modelling conventions:
* Python `datetime.date` is modelled by the proleptic Gregorian calendar
  (structure `Date` with a validity predicate).  Python's year bounds
  (1..9999) are relaxed to `1 ≤ year`; no claim depends on the upper bound.
* Floats are modelled by `ℚ` (the code performs sums, means, comparisons —
  all exact on the values involved).
* The composite of the cache lookup and the HTTP request inside
  `_fetch_openmeteo_daily` is modelled by an oracle
  `fetch : base_url → source → coords → start → end → Except String payload`:
  both the cache-hit and the cache-miss branch parse the payload and set the
  provenance fields identically, so the oracle captures every behaviour the
  claims depend on.  An `Except.error` models any raised exception
  (network error, upstream error status, parse failure).
-/

/-- Gregorian leap-year test, as Python's `calendar.isleap` /
`datetime.date` validity uses it. -/
def isLeap (y : Nat) : Bool :=
  y % 4 == 0 && (y % 100 != 0 || y % 400 == 0)

/-- Number of days in month `m` of year `y` (months 1..12). -/
def daysInMonth (y m : Nat) : Nat :=
  if m = 2 then (if isLeap y then 29 else 28)
  else if m = 4 ∨ m = 6 ∨ m = 9 ∨ m = 11 then 30
  else 31

/-- A calendar date (year, month, day), mirroring `datetime.date`. -/
structure Date where
  year : Nat
  month : Nat
  day : Nat
deriving DecidableEq, Repr

/-- Validity of a date: the constraint `datetime.date` enforces
(proleptic Gregorian; Python's upper year bound 9999 is relaxed). -/
def Date.IsValid (d : Date) : Prop :=
  1 ≤ d.year ∧ 1 ≤ d.month ∧ d.month ≤ 12 ∧ 1 ≤ d.day ∧ d.day ≤ daysInMonth d.year d.month

instance : DecidablePred Date.IsValid := fun d => by
  unfold Date.IsValid; infer_instance

/-- Strict lexicographic order on dates, as `datetime.date.__lt__`. -/
def Date.lt (a b : Date) : Prop :=
  a.year < b.year ∨ (a.year = b.year ∧
    (a.month < b.month ∨ (a.month = b.month ∧ a.day < b.day)))

instance : DecidableRel Date.lt := fun a b => by
  unfold Date.lt; infer_instance

/-- Non-strict order on dates, as `datetime.date.__le__`. -/
def Date.le (a b : Date) : Prop :=
  Date.lt a b ∨ a = b

instance : DecidableRel Date.le := fun a b => by
  unfold Date.le; infer_instance

/-- Rata-die style ordinal (`datetime.date.toordinal`): leap years strictly
before year `y`. -/
def leapsBefore (y : Nat) : Nat :=
  (y - 1) / 4 - (y - 1) / 100 + (y - 1) / 400

/-- Days in all years strictly before year `y` (years start at 1). -/
def daysBeforeYear (y : Nat) : Nat :=
  365 * (y - 1) + leapsBefore y

/-- Days in all months of year `y` strictly before month `m`. -/
def daysBeforeMonth (y m : Nat) : Nat :=
  ((List.range (m - 1)).map (fun k => daysInMonth y (k + 1))).sum

/-- Ordinal of a date: its proleptic-Gregorian day number, with
`⟨1, 1, 1⟩.ordinal = 1` (as in CPython's `date.toordinal`). -/
def Date.ordinal (d : Date) : Nat :=
  daysBeforeYear d.year + daysBeforeMonth d.year d.month + d.day

/-- Successor date (`d + timedelta(days=1)`). -/
def Date.next (d : Date) : Date :=
  if d.day < daysInMonth d.year d.month then ⟨d.year, d.month, d.day + 1⟩
  else if d.month < 12 then ⟨d.year, d.month + 1, 1⟩
  else ⟨d.year + 1, 1, 1⟩

/-- `d + timedelta(days=n)`. -/
def Date.addDays (d : Date) : Nat → Date
  | 0 => d
  | n + 1 => (d.addDays n).next

theorem daysInMonth_pos (y m : Nat) : 1 ≤ daysInMonth y m := by
  unfold daysInMonth; split_ifs <;> omega

theorem daysInMonth_le (y m : Nat) : daysInMonth y m ≤ 31 := by
  unfold daysInMonth; split_ifs <;> omega

theorem date_trichotomy (a b : Date) : Date.lt a b ∨ a = b ∨ Date.lt b a := by
  rcases a with ⟨ay, am, ad⟩
  rcases b with ⟨by_, bm, bd⟩
  simp only [Date.lt, Date.mk.injEq]
  omega

theorem date_not_lt (a b : Date) : ¬ Date.lt a b ↔ Date.le b a := by
  rcases a with ⟨ay, am, ad⟩
  rcases b with ⟨by_, bm, bd⟩
  simp only [Date.lt, Date.le, Date.mk.injEq]
  omega

theorem date_not_le (a b : Date) : ¬ Date.le a b ↔ Date.lt b a := by
  rcases a with ⟨ay, am, ad⟩
  rcases b with ⟨by_, bm, bd⟩
  simp only [Date.lt, Date.le, Date.mk.injEq]
  omega

theorem daysBeforeMonth_succ (y m : Nat) (h : 1 ≤ m) :
    daysBeforeMonth y (m + 1) = daysBeforeMonth y m + daysInMonth y m := by
  unfold daysBeforeMonth
  have h1 : m + 1 - 1 = (m - 1) + 1 := by omega
  have h2 : m - 1 + 1 = m := by omega
  rw [h1, List.range_succ, List.map_append, List.sum_append]
  simp [h2]

theorem daysBeforeMonth_le_succ (y m : Nat) :
    daysBeforeMonth y m ≤ daysBeforeMonth y (m + 1) := by
  cases m with
  | zero => simp [daysBeforeMonth]
  | succ k => rw [daysBeforeMonth_succ y (k + 1) (by omega)]; omega

theorem daysBeforeMonth_mono (y : Nat) {m1 m2 : Nat} (h : m1 ≤ m2) :
    daysBeforeMonth y m1 ≤ daysBeforeMonth y m2 :=
  monotone_nat_of_le_succ (daysBeforeMonth_le_succ y) h

theorem daysBeforeMonth_13 (y : Nat) :
    daysBeforeMonth y 13 = if isLeap y then 366 else 365 := by
  by_cases hl : isLeap y <;>
    simp [daysBeforeMonth, List.range_succ, daysInMonth, hl]

theorem daysBeforeYear_succ (y : Nat) (h : 1 ≤ y) :
    daysBeforeYear (y + 1) = daysBeforeYear y + (if isLeap y then 366 else 365) := by
  unfold daysBeforeYear leapsBefore
  have hy : y + 1 - 1 = y := by omega
  rw [hy]
  by_cases hl : isLeap y
  · rw [if_pos hl]
    unfold isLeap at hl
    simp only [Bool.and_eq_true, Bool.or_eq_true, beq_iff_eq, bne_iff_ne, ne_eq,
      decide_eq_true_eq] at hl
    omega
  · rw [if_neg hl]
    unfold isLeap at hl
    simp only [Bool.and_eq_true, Bool.or_eq_true, beq_iff_eq, bne_iff_ne, ne_eq,
      decide_eq_true_eq, not_and, not_or, not_not] at hl
    omega

theorem daysBeforeYear_le_succ (y : Nat) : daysBeforeYear y ≤ daysBeforeYear (y + 1) := by
  cases y with
  | zero => simp [daysBeforeYear, leapsBefore]
  | succ k =>
    rw [daysBeforeYear_succ (k + 1) (by omega)]
    split_ifs <;> omega

theorem daysBeforeYear_mono {y1 y2 : Nat} (h : y1 ≤ y2) :
    daysBeforeYear y1 ≤ daysBeforeYear y2 :=
  monotone_nat_of_le_succ daysBeforeYear_le_succ h

theorem yearday_bound {d : Date} (h : d.IsValid) :
    daysBeforeMonth d.year d.month + d.day ≤ (if isLeap d.year then 366 else 365) := by
  obtain ⟨-, hm1, hm12, -, hd2⟩ := h
  have h1 : daysBeforeMonth d.year d.month + d.day ≤ daysBeforeMonth d.year (d.month + 1) := by
    rw [daysBeforeMonth_succ d.year d.month hm1]; omega
  have h2 : daysBeforeMonth d.year (d.month + 1) ≤ daysBeforeMonth d.year 13 :=
    daysBeforeMonth_mono d.year (by omega)
  rw [daysBeforeMonth_13] at h2
  omega

theorem next_isValid {d : Date} (h : d.IsValid) : d.next.IsValid := by
  obtain ⟨hy, hm1, hm12, hd1, hd2⟩ := h
  have hp1 := daysInMonth_pos d.year (d.month + 1)
  have hp2 := daysInMonth_pos (d.year + 1) 1
  unfold Date.next Date.IsValid
  split_ifs with h1 h2 <;> dsimp only <;> omega

theorem next_ordinal {d : Date} (h : d.IsValid) : d.next.ordinal = d.ordinal + 1 := by
  obtain ⟨hy, hm1, hm12, hd1, hd2⟩ := h
  unfold Date.next Date.ordinal
  split_ifs with h1 h2 <;> dsimp only
  · omega
  · rw [daysBeforeMonth_succ d.year d.month hm1]
    omega
  · have hm : d.month = 12 := by omega
    have h31 : daysInMonth d.year 12 = 31 := by norm_num [daysInMonth]
    have hb := daysBeforeMonth_succ d.year 12 (by omega)
    rw [daysBeforeMonth_13, h31] at hb
    have h0 : daysBeforeMonth (d.year + 1) 1 = 0 := by simp [daysBeforeMonth]
    rw [daysBeforeYear_succ d.year hy, h0, hm]
    rw [hm, h31] at hd2
    rw [hm] at h1
    rw [h31] at h1
    split_ifs at hb ⊢ <;> omega

theorem addDays_isValid {d : Date} (h : d.IsValid) (n : Nat) : (d.addDays n).IsValid := by
  induction n with
  | zero => exact h
  | succ k ih => exact next_isValid ih

theorem addDays_ordinal {d : Date} (h : d.IsValid) (n : Nat) :
    (d.addDays n).ordinal = d.ordinal + n := by
  induction n with
  | zero => rfl
  | succ k ih =>
    have := next_ordinal (addDays_isValid h k)
    simp only [Date.addDays]
    omega

theorem addDays_succ_comm (d : Date) (n : Nat) :
    d.addDays (n + 1) = d.next.addDays n := by
  induction n with
  | zero => rfl
  | succ k ih =>
    show (d.addDays (k + 1)).next = (d.next.addDays k).next
    rw [ih]

theorem lt_ordinal {a b : Date} (ha : a.IsValid) (hb : b.IsValid) (h : Date.lt a b) :
    a.ordinal < b.ordinal := by
  obtain ⟨hay, ham1, ham12, had1, had2⟩ := ha
  obtain ⟨hby, hbm1, hbm12, hbd1, hbd2⟩ := hb
  rcases h with hy | ⟨hy, hm | ⟨hm, hd⟩⟩
  · have hbd := yearday_bound (d := a) ⟨hay, ham1, ham12, had1, had2⟩
    have h2 : daysBeforeYear (a.year + 1) ≤ daysBeforeYear b.year :=
      daysBeforeYear_mono (by omega)
    rw [daysBeforeYear_succ a.year hay] at h2
    unfold Date.ordinal
    split_ifs at hbd h2 <;> omega
  · have h1 : daysBeforeMonth a.year a.month + a.day ≤ daysBeforeMonth a.year (a.month + 1) := by
      rw [daysBeforeMonth_succ a.year a.month ham1]; omega
    have h2 : daysBeforeMonth a.year (a.month + 1) ≤ daysBeforeMonth a.year b.month :=
      daysBeforeMonth_mono a.year (by omega)
    unfold Date.ordinal
    rw [hy] at h1 h2 ⊢
    omega
  · unfold Date.ordinal
    rw [hy, hm]
    omega

theorem le_ordinal {a b : Date} (ha : a.IsValid) (hb : b.IsValid) (h : Date.le a b) :
    a.ordinal ≤ b.ordinal := by
  rcases h with h | h
  · exact Nat.le_of_lt (lt_ordinal ha hb h)
  · rw [h]

theorem le_of_ordinal_le {a b : Date} (ha : a.IsValid) (hb : b.IsValid)
    (h : a.ordinal ≤ b.ordinal) : Date.le a b := by
  rcases date_trichotomy a b with h1 | h1 | h1
  · exact Or.inl h1
  · exact Or.inr h1
  · exact absurd h (by have := lt_ordinal hb ha h1; omega)

/-- Loop body of `_date_range_inclusive`: `while cur <= end: append cur; cur += 1 day`.
The fuel argument bounds the iteration count; `date_range_inclusive` supplies
`end.ordinal + 1 - cur.ordinal`, which is exactly the number of iterations the
Python loop performs, so the fuelled recursion computes the same list. -/
def dateRangeGo (e : Date) : Nat → Date → List Date
  | 0, _ => []
  | n + 1, cur => if Date.le cur e then cur :: dateRangeGo e n cur.next else []

/-- `_date_range_inclusive(start, end)`: every date from `start` to `end` inclusive. -/
def date_range_inclusive (start e : Date) : List Date :=
  dateRangeGo e (e.ordinal + 1 - start.ordinal) start

theorem dateRangeGo_spec (e : Date) (he : e.IsValid) :
    ∀ (n : Nat) (cur : Date), cur.IsValid → n = e.ordinal + 1 - cur.ordinal →
      dateRangeGo e n cur = (List.range n).map (fun i => cur.addDays i) := by
  intro n
  induction n with
  | zero => intro cur _ _; simp [dateRangeGo]
  | succ k ih =>
    intro cur hcur hn
    have hord : cur.ordinal ≤ e.ordinal := by omega
    have hle : Date.le cur e := le_of_ordinal_le hcur he hord
    have hnext : cur.next.ordinal = cur.ordinal + 1 := next_ordinal hcur
    have hrec := ih cur.next (next_isValid hcur) (by omega)
    simp only [dateRangeGo, if_pos hle, hrec, List.range_succ_eq_map, List.map_cons,
      List.map_map]
    congr 1
    apply List.map_congr_left
    intro i _
    show cur.next.addDays i = cur.addDays (i + 1)
    exact (addDays_succ_comm cur i).symm

theorem date_range_inclusive_spec {start e : Date} (hs : start.IsValid) (he : e.IsValid) :
    date_range_inclusive start e =
      (List.range (e.ordinal + 1 - start.ordinal)).map (fun i => start.addDays i) :=
  dateRangeGo_spec e he _ start hs rfl

theorem date_range_inclusive_length {start e : Date} (hs : start.IsValid) (he : e.IsValid) :
    (date_range_inclusive start e).length = e.ordinal + 1 - start.ordinal := by
  rw [date_range_inclusive_spec hs he]
  simp

theorem date_range_inclusive_get {start e : Date} (hs : start.IsValid) (he : e.IsValid)
    {i : Nat} (h : i < (date_range_inclusive start e).length) :
    (date_range_inclusive start e).get ⟨i, h⟩ = start.addDays i := by
  have hspec := date_range_inclusive_spec hs he
  have hlen := date_range_inclusive_length hs he
  rw [List.get_eq_getElem]
  conv in date_range_inclusive start e => rw [hspec]
  rw [List.getElem_map, List.getElem_range]

/-- Geographic coordinates (floats modelled by `ℚ`). -/
structure Coordinates where
  lat : ℚ
  lon : ℚ
deriving DecidableEq, Repr

/-- One daily weather record (`WeatherDay` of `core/schemas.py`);
every measured field is optional. -/
structure WeatherDay where
  date : Date
  temp_min_c : Option ℚ := none
  temp_max_c : Option ℚ := none
  precipitation_mm : Option ℚ := none
  wind_max_kmh : Option ℚ := none
  weather_code : Option Int := none
deriving DecidableEq, Repr

/-- Parsed Open-Meteo `daily` payload: parallel arrays indexed by day.
`time` holds the result of `date.fromisoformat` per entry (`none` =
unparseable date string); a `none` inside a value array models JSON null or
a non-numeric entry (`_safe_float`/`_safe_int` yield `None` for those). -/
structure OpenMeteoDaily where
  time : List (Option Date)
  temperature_2m_max : List (Option ℚ)
  temperature_2m_min : List (Option ℚ)
  precipitation_sum : List (Option ℚ)
  windspeed_10m_max : List (Option ℚ)
  weathercode : List (Option Int)
deriving DecidableEq, Repr

/-- `WeatherProfile` of `core/schemas.py`: day records, optional range-level
aggregates (all default-absent), raw payload, and provenance fields. -/
structure WeatherProfile where
  start_date : Date
  end_date : Date
  days : List WeatherDay
  temp_min_c : Option ℚ := none
  temp_max_c : Option ℚ := none
  precip_total_mm : Option ℚ := none
  rainy_days : Option Nat := none
  wind_max_kmh : Option ℚ := none
  raw : Option OpenMeteoDaily := none
  source : String := "forecast"
  is_estimate : Bool := false
  reference_years : List Nat := []
deriving DecidableEq, Repr

/-- Error taxonomy: each constructor models one of the `ValueError`s the
service raises (`invalidRange`: "end_date must be >= start_date";
`invalidMode`: unknown mode; `upstream`: an exception propagated out of a
live fetch; `insufficientHistory`: too few archive years succeeded, carrying
the succeeded/required counts the message reports). -/
inductive WeatherError where
  | invalidRange
  | invalidMode
  | upstream (msg : String)
  | insufficientHistory (succeeded required : Nat)
deriving DecidableEq, Repr

/-- Oracle for the cache+HTTP composite inside `_fetch_openmeteo_daily`:
arguments are base URL, source tag, coordinates, start, end; the result is
the parsed payload or the message of the raised exception. -/
def Fetch : Type :=
  String → String → Coordinates → Date → Date → Except String OpenMeteoDaily

def FORECAST_BASE_URL : String := "https://api.open-meteo.com/v1/forecast"

def ARCHIVE_BASE_URL : String := "https://archive-api.open-meteo.com/v1/archive"

/-- `MAX_FORECAST_DAYS = 16`. -/
def MAX_FORECAST_DAYS : Nat := 16

/-- `_safe_float(arr, idx)`: `None` on missing index or null entry. -/
def safe_float (arr : List (Option ℚ)) (idx : Nat) : Option ℚ :=
  match arr.get? idx with
  | none => none
  | some v => v

/-- `_safe_int(arr, idx)`: `None` on missing index or null entry. -/
def safe_int (arr : List (Option Int)) (idx : Nat) : Option Int :=
  match arr.get? idx with
  | none => none
  | some v => v

/-- `_profile_from_openmeteo`: walk the parallel arrays in lock-step by
index; a day whose date fails to parse is skipped silently; field
conversion failures yield absent fields.  Aggregate fields are left at
their (absent) defaults. -/
def profile_from_openmeteo (data : OpenMeteoDaily) (start end_ : Date)
    (include_raw : Bool) : WeatherProfile :=
  { start_date := start
    end_date := end_
    days := data.time.enum.filterMap (fun p =>
      p.2.map (fun d =>
        { date := d
          temp_min_c := safe_float data.temperature_2m_min p.1
          temp_max_c := safe_float data.temperature_2m_max p.1
          precipitation_mm := safe_float data.precipitation_sum p.1
          wind_max_kmh := safe_float data.windspeed_10m_max p.1
          weather_code := safe_int data.weathercode p.1 }))
    raw := if include_raw then some data else none }

/-- `_fetch_openmeteo_daily`: consult cache / issue the request (the oracle),
parse the payload, and stamp the live-fetch provenance.  Both the cache-hit
and the cache-miss branch of the source do exactly this. -/
def fetch_openmeteo_daily (fetch : Fetch) (base_url source : String)
    (coords : Coordinates) (start end_ : Date) (include_raw : Bool) :
    Except WeatherError WeatherProfile :=
  match fetch base_url source coords start end_ with
  | .error msg => .error (.upstream msg)
  | .ok data =>
    let profile := profile_from_openmeteo data start end_ include_raw
    .ok { profile with source := source, is_estimate := false, reference_years := [] }

/-- `statistics.mean`. -/
def mean (xs : List ℚ) : ℚ :=
  xs.sum / (xs.length : ℚ)

/-- Sort key of `_mode_int`: Python sorts `counts.items()` by
`(-count, value)` ascending and takes the first item, i.e. the unique
key-minimal value.  Using `length - count` (count ≤ length) instead of a
negated count keeps the key in `Nat ×ₗ ℤ`. -/
def modeKey (values : List Int) (v : Int) : Lex (Nat × Int) :=
  toLex (values.length - values.count v, v)

/-- `_mode_int`: most frequent value, ties broken by the smallest value;
`none` only for the empty list (where Python would raise `IndexError`).
`counts.items()` enumerates each distinct value once; since the sort key
`(-count, value)` is injective on distinct values, the enumeration order of
the dict is irrelevant and `sorted(...)[0][0]` is the unique key-minimal
distinct value — the argmin of `modeKey` over the distinct values. -/
def mode_int (values : List Int) : Option Int :=
  values.dedup.argmin (modeKey values)

/-- Day-clamping loop of `_safe_replace_year`:
`while day > 28: day -= 1; try: return date(year, month, day); except: continue`,
followed by `return date(year, month, day)`. -/
def clampDayDown (year month : Nat) : Nat → Date
  | 0 => ⟨year, month, 0⟩
  | d + 1 =>
    if 28 < d + 1 then
      if (Date.mk year month d).IsValid then ⟨year, month, d⟩
      else clampDayDown year month d
    else ⟨year, month, d + 1⟩

/-- `_safe_replace_year(d, year)`: `d.replace(year=year)` when that date is
valid; Feb 29 clamps to Feb 28 in non-leap years; otherwise the day is
decremented until valid. -/
def safe_replace_year (d : Date) (year : Nat) : Date :=
  if (Date.mk year d.month d.day).IsValid then ⟨year, d.month, d.day⟩
  else if d.month = 2 ∧ d.day = 29 then ⟨year, 2, 28⟩
  else clampDayDown year d.month d.day

/-- `min` over a list of floats (callers guard non-emptiness). -/
def listMin : List ℚ → ℚ
  | [] => 0
  | x :: xs => xs.foldl min x

/-- `max` over a list of floats (callers guard non-emptiness). -/
def listMax : List ℚ → ℚ
  | [] => 0
  | x :: xs => xs.foldl max x

/-- The aggregate block (weather.py lines 290-300): range-level aggregates
from the day sequence.  `(d.precipitation_mm or 0.0)` is `getD 0`: the only
falsy float is `0.0`, which maps to itself. -/
def apply_aggregates (p : WeatherProfile) : WeatherProfile :=
  let mins := p.days.filterMap (fun x => x.temp_min_c)
  let maxs := p.days.filterMap (fun x => x.temp_max_c)
  let precs := p.days.filterMap (fun x => x.precipitation_mm)
  let winds := p.days.filterMap (fun x => x.wind_max_kmh)
  { p with
    temp_min_c := if mins.isEmpty then none else some (listMin mins)
    temp_max_c := if maxs.isEmpty then none else some (listMax maxs)
    precip_total_mm := if precs.isEmpty then none else some precs.sum
    rainy_days := some (p.days.countP (fun d => decide (1 ≤ d.precipitation_mm.getD 0)))
    wind_max_kmh := if winds.isEmpty then none else some (listMax winds) }

/-- Per-index aggregation of the fallback synthesizer (inner loop of
`_historical_fallback_from_archive`): years whose day sequence is shorter
than `idx + 1` contribute nothing (`get? idx = none`); per field, only
present values enter the mean/mode; an empty value list yields an absent
field. -/
def agg_day (yearly : List (Nat × WeatherProfile)) (idx : Nat) (d_req : Date) :
    WeatherDay :=
  let days_at := yearly.filterMap (fun yp => yp.2.days.get? idx)
  let vals_tmin := days_at.filterMap (fun day => day.temp_min_c)
  let vals_tmax := days_at.filterMap (fun day => day.temp_max_c)
  let vals_prec := days_at.filterMap (fun day => day.precipitation_mm)
  let vals_wind := days_at.filterMap (fun day => day.wind_max_kmh)
  let vals_code := days_at.filterMap (fun day => day.weather_code)
  { date := d_req
    temp_min_c := if vals_tmin.isEmpty then none else some (mean vals_tmin)
    temp_max_c := if vals_tmax.isEmpty then none else some (mean vals_tmax)
    precipitation_mm := if vals_prec.isEmpty then none else some (mean vals_prec)
    wind_max_kmh := if vals_wind.isEmpty then none else some (mean vals_wind)
    weather_code := if vals_code.isEmpty then none else mode_int vals_code }

/-- `candidate_years = [today.year - i for i in range(1, years_back + 1)]`. -/
def candidate_years (today : Date) (years_back : Nat) : List Nat :=
  (List.range years_back).map (fun i => today.year - (i + 1))

/-- One iteration of the per-year loop: remap the requested range onto year
`y`, skip the year if the mapped range is inverted, fetch the archive data,
and drop the year silently on any failure. -/
def year_profile (fetch : Fetch) (coords : Coordinates)
    (requested_start requested_end : Date) (include_raw : Bool) (y : Nat) :
    Option (Nat × WeatherProfile) :=
  let mapped_start := safe_replace_year requested_start y
  let mapped_end := safe_replace_year requested_end y
  if Date.lt mapped_end mapped_start then none
  else
    match fetch_openmeteo_daily fetch ARCHIVE_BASE_URL ("archive-" ++ toString y)
        coords mapped_start mapped_end include_raw with
    | .ok prof => some (y, prof)
    | .error _ => none

/-- The `yearly_profiles` list of `_historical_fallback_from_archive`:
candidate years that survived remapping and whose archive fetch succeeded,
in candidate order, paired with their fetched profiles. -/
def yearly_profiles (fetch : Fetch) (coords : Coordinates)
    (requested_start requested_end : Date) (include_raw : Bool)
    (today : Date) (years_back : Nat) : List (Nat × WeatherProfile) :=
  (candidate_years today years_back).filterMap
    (year_profile fetch coords requested_start requested_end include_raw)

/-- The years that actually succeeded, in discovery order. -/
def succeeding_years (fetch : Fetch) (coords : Coordinates)
    (requested_start requested_end : Date) (include_raw : Bool)
    (today : Date) (years_back : Nat) : List Nat :=
  (yearly_profiles fetch coords requested_start requested_end include_raw
    today years_back).map (fun yp => yp.1)

/-- `_historical_fallback_from_archive` (`today` is passed explicitly; the
source reads `date.today()`). -/
def historical_fallback_from_archive (fetch : Fetch) (coords : Coordinates)
    (requested_start requested_end : Date) (include_raw : Bool)
    (today : Date) (years_back min_years : Nat) :
    Except WeatherError WeatherProfile :=
  let yearly := yearly_profiles fetch coords requested_start requested_end
    include_raw today years_back
  if yearly.length < min_years then
    .error (.insufficientHistory yearly.length min_years)
  else
    let requested_days := date_range_inclusive requested_start requested_end
    let agg_days := requested_days.enum.map (fun p => agg_day yearly p.1 p.2)
    let profile : WeatherProfile :=
      { start_date := requested_start
        end_date := requested_end
        days := agg_days
        raw := none
        source := "historical_fallback"
        is_estimate := true
        reference_years := yearly.map (fun yp => yp.1) }
    .ok (apply_aggregates profile)

/-- The mode resolution of `get_weather_profile` (lines 85-95): an explicit
mode is returned verbatim; `auto` routes on `end` and `today` alone. -/
def chosen_mode (mode : String) (today start end_ : Date) : String :=
  if mode = "auto" then
    if Date.lt end_ today then "archive"
    else if Date.le end_ (today.addDays MAX_FORECAST_DAYS) then "forecast"
    else "historical_fallback"
  else mode

/-- `get_weather_profile`: validate the range, validate the mode, classify,
and dispatch to the live fetch or the historical fallback. -/
def get_weather_profile (fetch : Fetch) (today : Date) (coords : Coordinates)
    (start end_ : Date) (include_raw : Bool) (mode : String)
    (fallback_years_back fallback_min_years : Nat) :
    Except WeatherError WeatherProfile :=
  if Date.lt end_ start then .error .invalidRange
  else if ¬ (mode = "auto" ∨ mode = "forecast" ∨ mode = "archive" ∨
      mode = "historical_fallback") then .error .invalidMode
  else
    let chosen := chosen_mode mode today start end_
    if chosen = "forecast" then
      fetch_openmeteo_daily fetch FORECAST_BASE_URL "forecast" coords start end_ include_raw
    else if chosen = "archive" then
      fetch_openmeteo_daily fetch ARCHIVE_BASE_URL "archive" coords start end_ include_raw
    else
      historical_fallback_from_archive fetch coords start end_ include_raw today
        fallback_years_back fallback_min_years

theorem date_lt_asymm {a b : Date} (h : Date.lt a b) : ¬ Date.lt b a := by
  rcases a with ⟨ay, am, ad⟩
  rcases b with ⟨by_, bm, bd⟩
  simp only [Date.lt] at *
  omega

theorem date_lt_of_le_of_lt {a b c : Date} (h1 : Date.le a b) (h2 : Date.lt b c) :
    Date.lt a c := by
  rcases a with ⟨ay, am, ad⟩
  rcases b with ⟨by_, bm, bd⟩
  rcases c with ⟨cy, cm, cd⟩
  simp only [Date.lt, Date.le, Date.mk.injEq] at *
  omega

theorem date_le_addDays {d : Date} (h : d.IsValid) (n : Nat) :
    Date.le d (d.addDays n) :=
  le_of_ordinal_le h (addDays_isValid h n) (by rw [addDays_ordinal h]; omega)

theorem mode_int_eq_some {values : List Int} (h : values ≠ []) :
    ∃ m, mode_int values = some m := by
  unfold mode_int
  cases hm : values.dedup.argmin (modeKey values) with
  | none => rw [List.argmin_eq_none, List.dedup_eq_nil] at hm; exact absurd hm h
  | some m => exact ⟨m, rfl⟩

theorem mode_int_mem {values : List Int} {m : Int} (h : mode_int values = some m) :
    m ∈ values := by
  unfold mode_int at h
  exact List.mem_dedup.mp (List.argmin_mem h)

theorem mode_int_best {values : List Int} {m : Int} (h : mode_int values = some m) :
    ∀ v ∈ values, values.count v ≤ values.count m ∧
      (values.count v = values.count m → m ≤ v) := by
  intro v hv
  have hv2 : v ∈ values.dedup := List.mem_dedup.mpr hv
  have hkey := List.le_of_mem_argmin hv2 h
  unfold modeKey at hkey
  rw [Prod.Lex.le_iff] at hkey
  have h1 : values.count m ≤ values.length := values.count_le_length m
  have h2 : values.count v ≤ values.length := values.count_le_length v
  simp only at hkey
  rcases hkey with hlt | ⟨heq, hle⟩
  · exact ⟨by omega, fun hc => by omega⟩
  · exact ⟨by omega, fun _ => hle⟩

theorem fetch_error_elim {fetch : Fetch} {b src : String} {c : Coordinates}
    {st en : Date} {ir : Bool} {err : WeatherError}
    (h : fetch_openmeteo_daily fetch b src c st en ir = .error err) :
    ∃ msg, err = .upstream msg := by
  unfold fetch_openmeteo_daily at h
  cases hE : fetch b src c st en with
  | error msg =>
    rw [hE] at h
    simp only [Except.error.injEq] at h
    exact ⟨msg, h.symm⟩
  | ok data =>
    rw [hE] at h
    simp at h

theorem fetch_ok_elim {fetch : Fetch} {b src : String} {c : Coordinates}
    {st en : Date} {ir : Bool} {p : WeatherProfile}
    (h : fetch_openmeteo_daily fetch b src c st en ir = .ok p) :
    ∃ data, fetch b src c st en = .ok data ∧
      p = { profile_from_openmeteo data st en ir with
            source := src, is_estimate := false, reference_years := [] } := by
  unfold fetch_openmeteo_daily at h
  cases hE : fetch b src c st en with
  | error msg =>
    rw [hE] at h
    simp at h
  | ok data =>
    rw [hE] at h
    simp only [Except.ok.injEq] at h
    exact ⟨data, rfl, h.symm⟩

theorem hf_error_elim {fetch : Fetch} {c : Coordinates} {rs re : Date} {ir : Bool}
    {today : Date} {yb my : Nat} {err : WeatherError}
    (h : historical_fallback_from_archive fetch c rs re ir today yb my = .error err) :
    (yearly_profiles fetch c rs re ir today yb).length < my ∧
      err = .insufficientHistory (yearly_profiles fetch c rs re ir today yb).length my := by
  unfold historical_fallback_from_archive at h
  by_cases hlen : (yearly_profiles fetch c rs re ir today yb).length < my
  · rw [if_pos hlen] at h
    simp only [Except.error.injEq] at h
    exact ⟨hlen, h.symm⟩
  · rw [if_neg hlen] at h
    simp at h

theorem hf_ok_elim {fetch : Fetch} {c : Coordinates} {rs re : Date} {ir : Bool}
    {today : Date} {yb my : Nat} {p : WeatherProfile}
    (h : historical_fallback_from_archive fetch c rs re ir today yb my = .ok p) :
    my ≤ (yearly_profiles fetch c rs re ir today yb).length ∧
      p = apply_aggregates
        { start_date := rs
          end_date := re
          days := (date_range_inclusive rs re).enum.map (fun q =>
            agg_day (yearly_profiles fetch c rs re ir today yb) q.1 q.2)
          raw := none
          source := "historical_fallback"
          is_estimate := true
          reference_years := (yearly_profiles fetch c rs re ir today yb).map
            (fun yp => yp.1) } := by
  unfold historical_fallback_from_archive at h
  by_cases hlen : (yearly_profiles fetch c rs re ir today yb).length < my
  · rw [if_pos hlen] at h
    simp at h
  · rw [if_neg hlen] at h
    simp only [Except.ok.injEq] at h
    exact ⟨by omega, h.symm⟩

theorem apply_aggregates_days (p : WeatherProfile) : (apply_aggregates p).days = p.days := rfl

theorem apply_aggregates_source (p : WeatherProfile) :
    (apply_aggregates p).source = p.source := rfl

theorem apply_aggregates_is_estimate (p : WeatherProfile) :
    (apply_aggregates p).is_estimate = p.is_estimate := rfl

theorem apply_aggregates_reference_years (p : WeatherProfile) :
    (apply_aggregates p).reference_years = p.reference_years := rfl

theorem hf_days {fetch : Fetch} {c : Coordinates} {rs re : Date} {ir : Bool}
    {today : Date} {yb my : Nat} {p : WeatherProfile}
    (h : historical_fallback_from_archive fetch c rs re ir today yb my = .ok p) :
    p.days = (date_range_inclusive rs re).enum.map (fun q =>
      agg_day (yearly_profiles fetch c rs re ir today yb) q.1 q.2) := by
  obtain ⟨-, hp⟩ := hf_ok_elim h
  rw [hp, apply_aggregates_days]

theorem hf_day_get? {fetch : Fetch} {c : Coordinates} {rs re : Date} {ir : Bool}
    {today : Date} {yb my : Nat} {p : WeatherProfile}
    (h : historical_fallback_from_archive fetch c rs re ir today yb my = .ok p)
    {i : Nat} {day : WeatherDay} (hd : p.days[i]? = some day) :
    ∃ d_req, (date_range_inclusive rs re)[i]? = some d_req ∧
      day = agg_day (yearly_profiles fetch c rs re ir today yb) i d_req := by
  rw [hf_days h, List.getElem?_map, List.getElem?_enum] at hd
  cases hq : (date_range_inclusive rs re)[i]? with
  | none => rw [hq] at hd; simp at hd
  | some d_req =>
    rw [hq] at hd
    simp at hd
    exact ⟨d_req, rfl, hd.symm⟩

theorem isEmpty_ite {α β : Type} [DecidableEq α] (l : List α) (a b : β) :
    (if l.isEmpty then a else b) = (if l = [] then a else b) := by
  cases l <;> simp

/-- C3: with requested mode `"auto"` the range classifier returns
`"archive"` exactly when `end < today`, `"forecast"` when
`today ≤ end ≤ today + MAX_FORECAST_DAYS`, `"historical_fallback"` when
`end > today + MAX_FORECAST_DAYS`; and the decision is independent of
`start` (hence of the span length). -/
theorem claim_C3_classifier (today s e : Date) (htoday : today.IsValid)
    (hrange : Date.le s e) :
    (Date.lt e today → chosen_mode "auto" today s e = "archive") ∧
    (Date.le today e → Date.le e (today.addDays MAX_FORECAST_DAYS) →
      chosen_mode "auto" today s e = "forecast") ∧
    (Date.lt (today.addDays MAX_FORECAST_DAYS) e →
      chosen_mode "auto" today s e = "historical_fallback") ∧
    (∀ s2 : Date, chosen_mode "auto" today s e = chosen_mode "auto" today s2 e) := by
  refine ⟨?_, ?_, ?_, fun s2 => rfl⟩
  · intro h
    unfold chosen_mode
    rw [if_pos rfl, if_pos h]
  · intro h1 h2
    unfold chosen_mode
    rw [if_pos rfl, if_neg ((date_not_lt e today).mpr h1), if_pos h2]
  · intro h
    unfold chosen_mode
    have hnl : ¬ Date.lt e today := by
      rw [date_not_lt]
      exact Or.inl (date_lt_of_le_of_lt (date_le_addDays htoday MAX_FORECAST_DAYS) h)
    have hne : ¬ Date.le e (today.addDays MAX_FORECAST_DAYS) := (date_not_le _ _).mpr h
    rw [if_pos rfl, if_neg hnl, if_neg hne]

/-- C8: the resolver fails with `invalidRange` exactly on inverted ranges,
before mode validation and before any fetch: for `end < start` the result is
`invalidRange` for every oracle and every mode string (valid or not); for
`start ≤ end` the result is never `invalidRange`. -/
theorem claim_C8_invalid_range :
    (∀ (fetch : Fetch) (today : Date) (coords : Coordinates) (s e : Date)
        (ir : Bool) (mode : String) (yb my : Nat), Date.lt e s →
      get_weather_profile fetch today coords s e ir mode yb my =
        .error .invalidRange) ∧
    (∀ (fetch : Fetch) (today : Date) (coords : Coordinates) (s e : Date)
        (ir : Bool) (mode : String) (yb my : Nat), Date.le s e →
      get_weather_profile fetch today coords s e ir mode yb my ≠
        .error .invalidRange) := by
  constructor
  · intro fetch today coords s e ir mode yb my h
    unfold get_weather_profile
    rw [if_pos h]
  · intro fetch today coords s e ir mode yb my h hcon
    unfold get_weather_profile at hcon
    rw [if_neg ((date_not_lt e s).mpr h)] at hcon
    by_cases hm : ¬ (mode = "auto" ∨ mode = "forecast" ∨ mode = "archive" ∨
        mode = "historical_fallback")
    · rw [if_pos hm] at hcon
      simp at hcon
    · rw [if_neg hm] at hcon
      dsimp only at hcon
      split_ifs at hcon with h1 h2
      · obtain ⟨msg, hmsg⟩ := fetch_error_elim hcon
        simp at hmsg
      · obtain ⟨msg, hmsg⟩ := fetch_error_elim hcon
        simp at hmsg
      · obtain ⟨-, herr⟩ := hf_error_elim hcon
        simp at herr

/-- C4: `_safe_replace_year` is total (never raises in the modelled calendar)
and always returns a valid date in the target year with the month preserved;
a month/day combination valid in the target year is preserved exactly; the
only invalid combination a valid input can produce is Feb 29 mapped onto a
non-leap year, which clamps to Feb 28 (so the decrement-until-valid clause
is vacuous); in particular
`_safe_replace_year(2024-02-29, 2025) = 2025-02-28`. -/
theorem claim_C4_safe_replace_year :
    (∀ (d : Date) (y : Nat), d.IsValid → 1 ≤ y →
      ((safe_replace_year d y).IsValid ∧ (safe_replace_year d y).year = y ∧
        (safe_replace_year d y).month = d.month) ∧
      ((Date.mk y d.month d.day).IsValid →
        safe_replace_year d y = ⟨y, d.month, d.day⟩) ∧
      (¬ (Date.mk y d.month d.day).IsValid →
        d.month = 2 ∧ d.day = 29 ∧ safe_replace_year d y = ⟨y, 2, 28⟩)) ∧
    safe_replace_year ⟨2024, 2, 29⟩ 2025 = ⟨2025, 2, 28⟩ := by
  constructor
  · intro d y hd hy
    by_cases hv : (Date.mk y d.month d.day).IsValid
    · have hres : safe_replace_year d y = ⟨y, d.month, d.day⟩ := by
        unfold safe_replace_year
        rw [if_pos hv]
      refine ⟨?_, fun _ => hres, fun hc => absurd hv hc⟩
      rw [hres]
      exact ⟨hv, rfl, rfl⟩
    · obtain ⟨hy1, hm1, hm12, hd1, hd2⟩ := hd
      have hfeb : d.month = 2 ∧ d.day = 29 := by
        by_contra hcon
        apply hv
        refine ⟨hy, hm1, hm12, hd1, ?_⟩
        dsimp only
        by_cases hm2 : d.month = 2
        · have hne : d.day ≠ 29 := fun hd29 => hcon ⟨hm2, hd29⟩
          unfold daysInMonth at hd2 ⊢
          rw [if_pos hm2] at hd2 ⊢
          split_ifs at hd2 ⊢ <;> omega
        · unfold daysInMonth at hd2 ⊢
          rw [if_neg hm2] at hd2 ⊢
          exact hd2
      have hres : safe_replace_year d y = ⟨y, 2, 28⟩ := by
        unfold safe_replace_year
        rw [if_neg hv, if_pos hfeb]
      have h28 : (Date.mk y 2 28).IsValid := by
        unfold Date.IsValid daysInMonth
        refine ⟨hy, by norm_num, by norm_num, by norm_num, ?_⟩
        dsimp only
        split_ifs <;> omega
      refine ⟨?_, fun hvv => absurd hvv hv, fun _ => ⟨hfeb.1, hfeb.2, hres⟩⟩
      rw [hres]
      exact ⟨h28, rfl, hfeb.1.symm⟩
  · decide

/-- C5: `_mode_int` on a non-empty list returns a member of maximal
frequency, smallest among tied-max-frequency values; `[3, 3, 5, 5] ↦ 3`;
and the fallback's per-day weather code is exactly this mode over the codes
the years reported at that position, absent when no year contributed one. -/
theorem claim_C5_mode_int :
    (∀ values : List Int, values ≠ [] →
      ∃ m, mode_int values = some m ∧ m ∈ values ∧
        (∀ v ∈ values, values.count v ≤ values.count m) ∧
        (∀ v ∈ values, values.count v = values.count m → m ≤ v)) ∧
    mode_int [3, 3, 5, 5] = some 3 ∧
    (∀ (fetch : Fetch) (c : Coordinates) (rs re : Date) (ir : Bool)
        (today : Date) (yb my : Nat) (p : WeatherProfile),
      historical_fallback_from_archive fetch c rs re ir today yb my = .ok p →
      ∀ (i : Nat) (day : WeatherDay), p.days[i]? = some day →
        day.weather_code =
          (if ((yearly_profiles fetch c rs re ir today yb).filterMap
                (fun yp => yp.2.days.get? i)).filterMap
                (fun dd => dd.weather_code) = [] then none
           else mode_int (((yearly_profiles fetch c rs re ir today yb).filterMap
                (fun yp => yp.2.days.get? i)).filterMap
                (fun dd => dd.weather_code)))) := by
  refine ⟨?_, by decide, ?_⟩
  · intro values hne
    obtain ⟨m, hm⟩ := mode_int_eq_some hne
    exact ⟨m, hm, mode_int_mem hm, fun v hv => (mode_int_best hm v hv).1,
      fun v hv => (mode_int_best hm v hv).2⟩
  · intro fetch c rs re ir today yb my p h i day hd
    obtain ⟨d_req, -, hday⟩ := hf_day_get? h hd
    rw [hday]
    simp only [agg_day, isEmpty_ite]

/-- C1: for every index `i` of the requested day list, each of the four
numeric fields of the synthesized day at position `i` is the arithmetic mean
(sum divided by count) of the present values at position `i` across the
succeeding years, absent when no year contributed a value there; a year
whose day sequence is shorter than `i + 1` contributes nothing at position
`i` (its `get? i` is `none`) — alignment is purely positional. -/
theorem claim_C1_per_day_mean :
    ∀ (fetch : Fetch) (c : Coordinates) (rs re : Date) (ir : Bool)
      (today : Date) (yb my : Nat) (p : WeatherProfile),
    historical_fallback_from_archive fetch c rs re ir today yb my = .ok p →
    ∀ (i : Nat) (day : WeatherDay), p.days[i]? = some day →
      (day.temp_min_c =
        (if ((yearly_profiles fetch c rs re ir today yb).filterMap
              (fun yp => yp.2.days.get? i)).filterMap (fun dd => dd.temp_min_c) = []
         then none
         else some ((((yearly_profiles fetch c rs re ir today yb).filterMap
              (fun yp => yp.2.days.get? i)).filterMap (fun dd => dd.temp_min_c)).sum /
            ((((yearly_profiles fetch c rs re ir today yb).filterMap
              (fun yp => yp.2.days.get? i)).filterMap (fun dd => dd.temp_min_c)).length : ℚ)))) ∧
      (day.temp_max_c =
        (if ((yearly_profiles fetch c rs re ir today yb).filterMap
              (fun yp => yp.2.days.get? i)).filterMap (fun dd => dd.temp_max_c) = []
         then none
         else some ((((yearly_profiles fetch c rs re ir today yb).filterMap
              (fun yp => yp.2.days.get? i)).filterMap (fun dd => dd.temp_max_c)).sum /
            ((((yearly_profiles fetch c rs re ir today yb).filterMap
              (fun yp => yp.2.days.get? i)).filterMap (fun dd => dd.temp_max_c)).length : ℚ)))) ∧
      (day.precipitation_mm =
        (if ((yearly_profiles fetch c rs re ir today yb).filterMap
              (fun yp => yp.2.days.get? i)).filterMap (fun dd => dd.precipitation_mm) = []
         then none
         else some ((((yearly_profiles fetch c rs re ir today yb).filterMap
              (fun yp => yp.2.days.get? i)).filterMap (fun dd => dd.precipitation_mm)).sum /
            ((((yearly_profiles fetch c rs re ir today yb).filterMap
              (fun yp => yp.2.days.get? i)).filterMap (fun dd => dd.precipitation_mm)).length : ℚ)))) ∧
      (day.wind_max_kmh =
        (if ((yearly_profiles fetch c rs re ir today yb).filterMap
              (fun yp => yp.2.days.get? i)).filterMap (fun dd => dd.wind_max_kmh) = []
         then none
         else some ((((yearly_profiles fetch c rs re ir today yb).filterMap
              (fun yp => yp.2.days.get? i)).filterMap (fun dd => dd.wind_max_kmh)).sum /
            ((((yearly_profiles fetch c rs re ir today yb).filterMap
              (fun yp => yp.2.days.get? i)).filterMap (fun dd => dd.wind_max_kmh)).length : ℚ)))) := by
  intro fetch c rs re ir today yb my p h i day hd
  obtain ⟨d_req, -, hday⟩ := hf_day_get? h hd
  rw [hday]
  simp [agg_day, mean, isEmpty_ite]

theorem year_profile_fst {fetch : Fetch} {c : Coordinates} {rs re : Date}
    {ir : Bool} {y : Nat} {r : Nat × WeatherProfile}
    (h : year_profile fetch c rs re ir y = some r) : r.1 = y := by
  unfold year_profile at h
  dsimp only at h
  split_ifs at h
  revert h
  cases fetch_openmeteo_daily fetch ARCHIVE_BASE_URL ("archive-" ++ toString y) c
      (safe_replace_year rs y) (safe_replace_year re y) ir with
  | error e => intro h; simp at h
  | ok prof => intro h; simp at h; rw [← h]

theorem map_fst_filterMap {α β : Type} (f : α → Option (α × β))
    (hf : ∀ a r, f a = some r → r.1 = a) (l : List α) :
    (l.filterMap f).map Prod.fst = l.filter (fun a => (f a).isSome) := by
  induction l with
  | nil => rfl
  | cons a t ih =>
    rw [List.filterMap_cons, List.filter_cons]
    cases hfa : f a with
    | none => simp [hfa, ih]
    | some r =>
      have := hf a r hfa
      simp [hfa, ih, this]

/-- C2: inside the fallback, a single year's fetch failure is swallowed (a
year "succeeds" exactly when its remapped range is not inverted and its
archive fetch returns Ok — errors only shrink the succeeding list); the
synthesis fails, with `insufficientHistory` carrying the succeeded and
required counts, if and only if fewer than `min_years` candidate years
succeed; and on success `reference_years` is exactly the list of succeeding
years. -/
theorem claim_C2_partial_failure_tolerance :
    ∀ (fetch : Fetch) (c : Coordinates) (rs re : Date) (ir : Bool)
      (today : Date) (yb my : Nat),
      (succeeding_years fetch c rs re ir today yb =
        (candidate_years today yb).filter
          (fun y => (year_profile fetch c rs re ir y).isSome)) ∧
      (∀ err, historical_fallback_from_archive fetch c rs re ir today yb my =
          .error err ↔
        ((succeeding_years fetch c rs re ir today yb).length < my ∧
          err = .insufficientHistory
            (succeeding_years fetch c rs re ir today yb).length my)) ∧
      (∀ p, historical_fallback_from_archive fetch c rs re ir today yb my = .ok p →
        p.reference_years = succeeding_years fetch c rs re ir today yb) := by
  intro fetch c rs re ir today yb my
  have hlen : (succeeding_years fetch c rs re ir today yb).length =
      (yearly_profiles fetch c rs re ir today yb).length := by
    unfold succeeding_years
    rw [List.length_map]
  refine ⟨?_, ?_, ?_⟩
  · unfold succeeding_years yearly_profiles
    exact map_fst_filterMap _ (fun a r h => year_profile_fst h) _
  · intro err
    constructor
    · intro h
      obtain ⟨h1, h2⟩ := hf_error_elim h
      rw [hlen]
      exact ⟨h1, h2⟩
    · intro ⟨h1, h2⟩
      rw [hlen] at h1 h2
      unfold historical_fallback_from_archive
      rw [if_pos h1, h2]
  · intro p h
    obtain ⟨-, hp⟩ := hf_ok_elim h
    rw [hp, apply_aggregates_reference_years]
    rfl

/-- C6: on the synthesized profile, `precip_total_mm` is the sum of the
present daily precipitation values and is absent — not zero — when no day
has a present value; `rainy_days` counts exactly the days whose
precipitation is present and `≥ 1.0` (the source's `(x or 0.0) ≥ 1.0`
treats an absent value as `0.0`, so such days are never rainy). -/
theorem claim_C6_range_aggregates :
    ∀ (fetch : Fetch) (c : Coordinates) (rs re : Date) (ir : Bool)
      (today : Date) (yb my : Nat) (p : WeatherProfile),
    historical_fallback_from_archive fetch c rs re ir today yb my = .ok p →
      (p.precip_total_mm =
        (if p.days.filterMap (fun d => d.precipitation_mm) = [] then none
         else some ((p.days.filterMap (fun d => d.precipitation_mm)).sum))) ∧
      (p.rainy_days = some (p.days.countP (fun d =>
        match d.precipitation_mm with
        | none => false
        | some q => decide (1 ≤ q)))) := by
  intro fetch c rs re ir today yb my p h
  obtain ⟨-, hp⟩ := hf_ok_elim h
  have hpred : (fun d : WeatherDay => decide (1 ≤ d.precipitation_mm.getD 0)) =
      (fun d : WeatherDay =>
        match d.precipitation_mm with
        | none => false
        | some q => decide (1 ≤ q)) := by
    funext dd
    cases dd.precipitation_mm with
    | none => decide
    | some q => rfl
  constructor
  · rw [hp]
    simp only [apply_aggregates, apply_aggregates_days]
    rw [isEmpty_ite]
  · rw [hp]
    simp only [apply_aggregates, apply_aggregates_days]
    rw [hpred]

/-- C7: every profile the resolver returns satisfies the provenance
invariant (`is_estimate` iff `source = "historical_fallback"`, and
`reference_years` non-empty iff `is_estimate`, given `min_years ≥ 1` on the
fallback path); profiles from the live forecast/archive branches always
carry `is_estimate = false` and `reference_years = []`. -/
theorem claim_C7_provenance_invariant :
    ∀ (fetch : Fetch) (today : Date) (c : Coordinates) (s e : Date) (ir : Bool)
      (mode : String) (yb my : Nat) (p : WeatherProfile), 1 ≤ my →
    get_weather_profile fetch today c s e ir mode yb my = .ok p →
      (p.is_estimate = true ↔ p.source = "historical_fallback") ∧
      (p.reference_years ≠ [] ↔ p.is_estimate = true) ∧
      ((chosen_mode mode today s e = "forecast" ∨
          chosen_mode mode today s e = "archive") →
        p.is_estimate = false ∧ p.reference_years = []) := by
  intro fetch today c s e ir mode yb my p hmy h
  unfold get_weather_profile at h
  dsimp only at h
  split_ifs at h with h1 h2 h3 h4
  · obtain ⟨data, -, hp⟩ := fetch_ok_elim h
    rw [hp]
    exact ⟨by simp, by simp, fun _ => ⟨rfl, rfl⟩⟩
  · obtain ⟨data, -, hp⟩ := fetch_ok_elim h
    rw [hp]
    exact ⟨by simp, by simp, fun _ => ⟨rfl, rfl⟩⟩
  · obtain ⟨hlen, hp⟩ := hf_ok_elim h
    have hne : List.map (fun yp => yp.1)
        (yearly_profiles fetch c s e ir today yb) ≠ [] := by
      rw [ne_eq, List.map_eq_nil_iff, ← List.length_eq_zero]
      omega
    rw [hp]
    refine ⟨by simp [apply_aggregates_is_estimate, apply_aggregates_source], ?_,
      fun hor => absurd hor (by push_neg; exact ⟨h3, h4⟩)⟩
    simp only [apply_aggregates_reference_years, apply_aggregates_is_estimate]
    constructor
    · intro _
      trivial
    · intro _
      exact hne

/-- C10: a successful fallback profile has exactly one day per calendar
date from `requested_start` to `requested_end` inclusive, in order: the
day sequence has length `end.ordinal + 1 - start.ordinal` (the span in
days plus one), the day at index `i` is dated `start + i` days, and the
projected date list is exactly `_date_range_inclusive(start, end)`. -/
theorem claim_C10_fallback_day_dates :
    ∀ (fetch : Fetch) (c : Coordinates) (rs re : Date) (ir : Bool)
      (today : Date) (yb my : Nat) (p : WeatherProfile),
    rs.IsValid → re.IsValid → Date.le rs re →
    historical_fallback_from_archive fetch c rs re ir today yb my = .ok p →
      p.days.length = re.ordinal + 1 - rs.ordinal ∧
      (∀ (i : Nat) (day : WeatherDay), p.days[i]? = some day →
        day.date = rs.addDays i) ∧
      p.days.map (fun d => d.date) = date_range_inclusive rs re := by
  intro fetch c rs re ir today yb my p hs he hle h
  refine ⟨?_, ?_, ?_⟩
  · rw [hf_days h, List.length_map, List.enum_length,
      date_range_inclusive_length hs he]
  · intro i day hd
    obtain ⟨d_req, hq, hday⟩ := hf_day_get? h hd
    have hdate : day.date = d_req := by rw [hday]; rfl
    rw [hdate]
    rw [date_range_inclusive_spec hs he, List.getElem?_map] at hq
    cases hr : (List.range (re.ordinal + 1 - rs.ordinal))[i]? with
    | none => rw [hr] at hq; simp at hq
    | some j =>
      have hj : j = i := by
        by_cases hin : i < re.ordinal + 1 - rs.ordinal
        · rw [List.getElem?_range hin] at hr
          exact (Option.some.injEq _ _ ▸ hr).symm
        · rw [List.getElem?_eq_none (by simpa using hin)] at hr
          simp at hr
      rw [hr] at hq
      simp only [Option.map_some'] at hq
      rw [hj] at hq
      exact ((Option.some.injEq _ _ ▸ hq)).symm
  · rw [hf_days h, List.map_map]
    have hcomp : ((fun d : WeatherDay => d.date) ∘
        (fun q : Nat × Date => agg_day (yearly_profiles fetch c rs re ir today yb) q.1 q.2)) =
        (fun q : Nat × Date => q.2) := by
      funext q
      simp [agg_day]
    rw [hcomp, List.enum_map_snd]

instance {ε α : Type} [DecidableEq ε] [DecidableEq α] : DecidableEq (Except ε α)
  | .error e1, .error e2 =>
    if h : e1 = e2 then isTrue (by rw [h])
    else isFalse (fun hc => h (Except.error.inj hc))
  | .error _, .ok _ => isFalse (fun hc => Except.noConfusion hc)
  | .ok _, .error _ => isFalse (fun hc => Except.noConfusion hc)
  | .ok a1, .ok a2 =>
    if h : a1 = a2 then isTrue (by rw [h])
    else isFalse (fun hc => h (Except.ok.inj hc))

instance : Inhabited WeatherProfile :=
  ⟨{ start_date := ⟨1, 1, 1⟩, end_date := ⟨1, 1, 1⟩, days := [] }⟩

/-- Concrete archive payload used to exercise the theorems on concrete runs:
three days, some fields absent (`temperature_2m_min` absent on day 2,
`temperature_2m_max` absent on day 3). -/
def sampleDaily : OpenMeteoDaily :=
  { time := [some ⟨2025, 3, 1⟩, some ⟨2025, 3, 2⟩, some ⟨2025, 3, 3⟩]
    temperature_2m_max := [some 10, some 12, none]
    temperature_2m_min := [some 2, none, some 4]
    precipitation_sum := [some 0, some 5, some 7]
    windspeed_10m_max := [some 20, some 30, some 10]
    weathercode := [some 3, some 3, some 5] }

/-- Like `sampleDaily` but with no precipitation data at all. -/
def sampleDailyDry : OpenMeteoDaily :=
  { time := [some ⟨2025, 3, 1⟩, some ⟨2025, 3, 2⟩, some ⟨2025, 3, 3⟩]
    temperature_2m_max := [some 10, some 12, none]
    temperature_2m_min := [some 2, none, some 4]
    precipitation_sum := [none, none, none]
    windspeed_10m_max := [some 20, some 30, some 10]
    weathercode := [some 3, some 3, some 5] }

/-- Oracle: every request succeeds with `sampleDaily`. -/
def fetchOk : Fetch := fun _ _ _ _ _ => .ok sampleDaily

/-- Oracle: every request succeeds with `sampleDailyDry`. -/
def fetchDry : Fetch := fun _ _ _ _ _ => .ok sampleDailyDry

/-- Oracle simulating an upstream failure for reference year 2023 only. -/
def fetchFlaky : Fetch := fun _ src _ _ _ =>
  if src = "archive-2023" then .error "simulated upstream error" else .ok sampleDaily

def cToday : Date := ⟨2025, 10, 12⟩

def cCoords : Coordinates := ⟨50, 7⟩

def cStart : Date := ⟨2026, 3, 1⟩

def cEnd : Date := ⟨2026, 3, 3⟩

/-- A concrete successful fallback run (years 2024, 2023, 2022 all succeed). -/
def cFallback : Except WeatherError WeatherProfile :=
  historical_fallback_from_archive fetchOk cCoords cStart cEnd false cToday 3 2

def cProfile : WeatherProfile :=
  match cFallback with
  | .ok p => p
  | .error _ => default

def cDay0 : WeatherDay := (cProfile.days[0]?).getD { date := ⟨1, 1, 1⟩ }

def cDay1 : WeatherDay := (cProfile.days[1]?).getD { date := ⟨1, 1, 1⟩ }

/-- A concrete successful fallback run with no precipitation data. -/
def cFallbackDry : Except WeatherError WeatherProfile :=
  historical_fallback_from_archive fetchDry cCoords cStart cEnd false cToday 3 2

def cProfileDry : WeatherProfile :=
  match cFallbackDry with
  | .ok p => p
  | .error _ => default

/-- A concrete forecast-path resolver run. -/
def cLive : Except WeatherError WeatherProfile :=
  get_weather_profile fetchOk cToday cCoords cStart cEnd false "forecast" 10 3

def cLiveProfile : WeatherProfile :=
  match cLive with
  | .ok p => p
  | .error _ => default

/-- C9 counterexample: a concrete forecast-path run returns a profile whose
non-empty day sequence aggregates (by the very aggregate block the fallback
uses) to a present minimum temperature, yet every aggregate field on the
returned profile is absent — refuting the claim that the forecast/archive
paths return profiles carrying the range-level aggregates computed from
their day sequence. -/
theorem claim_C9_counterexample :
    cLive = .ok cLiveProfile ∧
    cLiveProfile.days ≠ [] ∧
    (apply_aggregates cLiveProfile).temp_min_c = some 2 ∧
    cLiveProfile.temp_min_c = none ∧ cLiveProfile.temp_max_c = none ∧
    cLiveProfile.precip_total_mm = none ∧ cLiveProfile.rainy_days = none ∧
    cLiveProfile.wind_max_kmh = none := by
  refine ⟨rfl, by decide, by decide, rfl, rfl, rfl, rfl, rfl⟩

/-- C9 amended: on the forecast and archive paths the resolver returns the
parsed profile with all five range-level aggregates absent; only the
historical fallback synthesizer computes aggregates (e.g. its `rainy_days`
is always present). -/
theorem claim_C9_amended :
    (∀ (fetch : Fetch) (today : Date) (c : Coordinates) (s e : Date) (ir : Bool)
        (mode : String) (yb my : Nat) (p : WeatherProfile),
      (chosen_mode mode today s e = "forecast" ∨
        chosen_mode mode today s e = "archive") →
      get_weather_profile fetch today c s e ir mode yb my = .ok p →
      p.temp_min_c = none ∧ p.temp_max_c = none ∧ p.precip_total_mm = none ∧
        p.rainy_days = none ∧ p.wind_max_kmh = none) ∧
    (∀ (fetch : Fetch) (c : Coordinates) (rs re : Date) (ir : Bool)
        (today : Date) (yb my : Nat) (p : WeatherProfile),
      historical_fallback_from_archive fetch c rs re ir today yb my = .ok p →
      p.rainy_days.isSome = true) := by
  constructor
  · intro fetch today c s e ir mode yb my p hor h
    unfold get_weather_profile at h
    dsimp only at h
    split_ifs at h with h1 h2 h3 h4
    · obtain ⟨data, -, hp⟩ := fetch_ok_elim h
      rw [hp]
      exact ⟨rfl, rfl, rfl, rfl, rfl⟩
    · obtain ⟨data, -, hp⟩ := fetch_ok_elim h
      rw [hp]
      exact ⟨rfl, rfl, rfl, rfl, rfl⟩
    · rcases hor with h5 | h5
      · exact absurd h5 h3
      · exact absurd h5 h4
  · intro fetch c rs re ir today yb my p h
    obtain ⟨-, hp⟩ := hf_ok_elim h
    rw [hp]
    rfl

/-- C9 witness: the amended theorem applied to a concrete forecast run. -/
theorem claim_C9_witness :
    cLiveProfile.temp_min_c = none ∧ cLiveProfile.temp_max_c = none ∧
    cLiveProfile.precip_total_mm = none ∧ cLiveProfile.rainy_days = none ∧
    cLiveProfile.wind_max_kmh = none :=
  claim_C9_amended.1 fetchOk cToday cCoords cStart cEnd false "forecast" 10 3
    cLiveProfile (Or.inl rfl) rfl

/-- C1 witness: on the concrete fallback run, day 2 has no minimum
temperature because no reference year reported one at that position. -/
theorem claim_C1_witness : cDay1.temp_min_c = none := by
  have h := (claim_C1_per_day_mean fetchOk cCoords cStart cEnd false cToday 3 2
    cProfile rfl 1 cDay1 rfl).1
  rw [h]
  decide

/-- C2 witness: with 2 of 3 candidate years succeeding and `min_years = 3`,
the synthesis fails with `insufficientHistory 2 3`. -/
theorem claim_C2_witness :
    historical_fallback_from_archive fetchFlaky cCoords cStart cEnd false
      cToday 3 3 = .error (.insufficientHistory 2 3) :=
  ((claim_C2_partial_failure_tolerance fetchFlaky cCoords cStart cEnd false
    cToday 3 3).2.1 (.insufficientHistory 2 3)).mpr ⟨by decide, by decide⟩

/-- C3 witness: a range ending far beyond the forecast horizon classifies as
`historical_fallback`. -/
theorem claim_C3_witness :
    chosen_mode "auto" cToday cStart cEnd = "historical_fallback" :=
  (claim_C3_classifier cToday cStart cEnd (by decide) (by decide)).2.2.1 (by decide)

/-- C4 witness: remapping 2024-02-29 onto 2025 yields a valid date in 2025
with month February. -/
theorem claim_C4_witness :
    (safe_replace_year ⟨2024, 2, 29⟩ 2025).IsValid ∧
    (safe_replace_year ⟨2024, 2, 29⟩ 2025).year = 2025 ∧
    (safe_replace_year ⟨2024, 2, 29⟩ 2025).month = 2 :=
  (claim_C4_safe_replace_year.1 ⟨2024, 2, 29⟩ 2025 (by decide) (by decide)).1

/-- C5 witness: on the concrete fallback run, the day-1 weather code is the
mode of the codes the years reported there. -/
theorem claim_C5_witness : cDay0.weather_code = some 3 := by
  have h := claim_C5_mode_int.2.2 fetchOk cCoords cStart cEnd false cToday 3 2
    cProfile rfl 0 cDay0 rfl
  rw [h]
  decide

/-- C6 witness: with no precipitation data at all, the total is absent (not
zero) and the rainy-day count is zero. -/
theorem claim_C6_witness :
    cProfileDry.precip_total_mm = none ∧ cProfileDry.rainy_days = some 0 := by
  have h := claim_C6_range_aggregates fetchDry cCoords cStart cEnd false cToday 3 2
    cProfileDry rfl
  refine ⟨?_, ?_⟩
  · rw [h.1]; decide
  · rw [h.2]; decide

/-- C7 witness: the provenance invariant instantiated on a concrete
forecast-path profile. -/
theorem claim_C7_witness :
    cLiveProfile.is_estimate = true ↔ cLiveProfile.source = "historical_fallback" :=
  (claim_C7_provenance_invariant fetchOk cToday cCoords cStart cEnd false "forecast"
    10 3 cLiveProfile (by decide) rfl).1

/-- C8 witness: an inverted range fails with `invalidRange` even though the
mode string is invalid too (the range check comes first). -/
theorem claim_C8_witness :
    get_weather_profile fetchOk cToday cCoords cEnd cStart false "bogus" 10 3 =
      .error .invalidRange :=
  claim_C8_invalid_range.1 fetchOk cToday cCoords cEnd cStart false "bogus" 10 3
    (by decide)

/-- C10 witness: the concrete fallback profile has exactly three days,
2026-03-01 through 2026-03-03. -/
theorem claim_C10_witness : cProfile.days.length = 3 := by
  have h := (claim_C10_fallback_day_dates fetchOk cCoords cStart cEnd false cToday 3 2
    cProfile (by decide) (by decide) (by decide) rfl).1
  rw [h]
  decide
